import Mathlib

/-
Verification of the receptivity classifier and the mock segmentation step of
src/garbha_ai_app.py.

Thickness values are embedded as rationals: every finite binary float is a
rational, the thresholds 7.0, 9.0 and 15.0 are exact in both representations,
and the classifier only compares against those thresholds, so the embedding is
faithful on every float input.
-/

namespace GarbhaAI

/-- Embedding of classify_endometrium (src/garbha_ai_app.py lines 8-32).
On None it returns the pair of the label N/A and the informational message
shown in place of a color; otherwise it tests the two range conditions in the
source order and falls through to the Non-Receptive catch-all. -/
def classify_endometrium (thickness_mm : Option ℚ) : String × String :=
  match thickness_mm with
  | Option.none => ("N/A", "Please run the analysis first.")
  | Option.some t =>
    if 9.0 ≤ t ∧ t ≤ 15.0 then
      ("Receptive (9-15 mm)", "green")
    else if 7.0 < t ∧ t < 9.0 then
      ("Pre-Receptive (7-9 mm)", "orange")
    else
      ("Non-Receptive (<7 mm or >15 mm)", "red")

/-- C1: for every thickness t with 9.0 <= t <= 15.0 (bounds inclusive),
classify_endometrium returns the label Receptive (9-15 mm) with the normal
severity, displayed as the color green. -/
theorem classify_receptive (t : ℚ) (h1 : 9.0 ≤ t) (h2 : t ≤ 15.0) :
    classify_endometrium (Option.some t) = ("Receptive (9-15 mm)", "green") := by
  simp only [classify_endometrium]
  rw [if_pos ⟨h1, h2⟩]

/-- Witness for C1 at the three concrete inputs 9.0, 12.5 and 15.0 named by
the claim. -/
theorem classify_receptive_witness :
    classify_endometrium (Option.some 9.0) = ("Receptive (9-15 mm)", "green") ∧
    classify_endometrium (Option.some 12.5) = ("Receptive (9-15 mm)", "green") ∧
    classify_endometrium (Option.some 15.0) = ("Receptive (9-15 mm)", "green") :=
  ⟨classify_receptive 9.0 (by norm_num) (by norm_num),
   classify_receptive 12.5 (by norm_num) (by norm_num),
   classify_receptive 15.0 (by norm_num) (by norm_num)⟩

/-- C2: for every thickness t with 7.0 < t < 9.0 (both bounds strict),
classify_endometrium returns the label Pre-Receptive (7-9 mm) with the warning
severity, displayed as the color orange. -/
theorem classify_pre_receptive (t : ℚ) (h1 : 7.0 < t) (h2 : t < 9.0) :
    classify_endometrium (Option.some t) = ("Pre-Receptive (7-9 mm)", "orange") := by
  simp only [classify_endometrium]
  rw [if_neg (by rintro ⟨h9, _⟩; linarith), if_pos ⟨h1, h2⟩]

/-- Witness for C2 at the three concrete inputs 7.01, 8.0 and 8.99 named by
the claim. -/
theorem classify_pre_receptive_witness :
    classify_endometrium (Option.some 7.01) = ("Pre-Receptive (7-9 mm)", "orange") ∧
    classify_endometrium (Option.some 8.0) = ("Pre-Receptive (7-9 mm)", "orange") ∧
    classify_endometrium (Option.some 8.99) = ("Pre-Receptive (7-9 mm)", "orange") :=
  ⟨classify_pre_receptive 7.01 (by norm_num) (by norm_num),
   classify_pre_receptive 8.0 (by norm_num) (by norm_num),
   classify_pre_receptive 8.99 (by norm_num) (by norm_num)⟩

/-- C3: for every thickness t with t < 7.0 or t > 15.0, and also at the exact
boundary t = 7.0 (which the strict Pre-Receptive bound excludes),
classify_endometrium returns the label Non-Receptive with the critical
severity, displayed as the color red. -/
theorem classify_non_receptive (t : ℚ) (h : t < 7.0 ∨ 15.0 < t ∨ t = 7.0) :
    classify_endometrium (Option.some t) =
      ("Non-Receptive (<7 mm or >15 mm)", "red") := by
  simp only [classify_endometrium]
  rcases h with h | h | h
  · rw [if_neg (by rintro ⟨h9, _⟩; linarith), if_neg (by rintro ⟨h7, _⟩; linarith)]
  · rw [if_neg (by rintro ⟨_, h15⟩; linarith), if_neg (by rintro ⟨_, h9⟩; linarith)]
  · subst h
    rw [if_neg (by rintro ⟨h9, _⟩; linarith), if_neg (by rintro ⟨h7, _⟩; linarith)]

/-- Witness for C3 at the concrete inputs 6.99, 15.01, 0.0, 100.0 and at the
exact boundary 7.0. -/
theorem classify_non_receptive_witness :
    classify_endometrium (Option.some 6.99) = ("Non-Receptive (<7 mm or >15 mm)", "red") ∧
    classify_endometrium (Option.some 15.01) = ("Non-Receptive (<7 mm or >15 mm)", "red") ∧
    classify_endometrium (Option.some 0.0) = ("Non-Receptive (<7 mm or >15 mm)", "red") ∧
    classify_endometrium (Option.some 100.0) = ("Non-Receptive (<7 mm or >15 mm)", "red") ∧
    classify_endometrium (Option.some 7.0) = ("Non-Receptive (<7 mm or >15 mm)", "red") :=
  ⟨classify_non_receptive 6.99 (Or.inl (by norm_num)),
   classify_non_receptive 15.01 (Or.inr (Or.inl (by norm_num))),
   classify_non_receptive 0.0 (Or.inl (by norm_num)),
   classify_non_receptive 100.0 (Or.inr (Or.inl (by norm_num))),
   classify_non_receptive 7.0 (Or.inr (Or.inr rfl))⟩

/-- C4: on the absent input, classify_endometrium returns the label N/A and,
as the second component, the informational message rather than any of the
three severity colors. Option.none is the only representation of the absent
state in the embedded domain, matching None in the source. -/
theorem classify_absent :
    classify_endometrium Option.none = ("N/A", "Please run the analysis first.") ∧
    (classify_endometrium Option.none).2 ≠ "green" ∧
    (classify_endometrium Option.none).2 ≠ "orange" ∧
    (classify_endometrium Option.none).2 ≠ "red" :=
  ⟨rfl, by decide, by decide, by decide⟩

/-- C5 (amended): on every finite thickness, the second component of the
result is one of the three display colors green, orange, red. -/
theorem severity_color_of_finite (t : ℚ) :
    (classify_endometrium (Option.some t)).2 = "green" ∨
    (classify_endometrium (Option.some t)).2 = "orange" ∨
    (classify_endometrium (Option.some t)).2 = "red" := by
  simp only [classify_endometrium]
  split_ifs <;> simp

/-- C5 counterexample: the claim quantifies over the absent input as well,
but there the second component is the message shown in place of a color,
which is none of green, orange, red. -/
theorem severity_color_counterexample :
    ¬ ((classify_endometrium Option.none).2 = "green" ∨
       (classify_endometrium Option.none).2 = "orange" ∨
       (classify_endometrium Option.none).2 = "red") := by
  decide

/-- The four branches of classify_endometrium, in source order. -/
inductive Branch where
  | absent
  | receptive
  | preReceptive
  | nonReceptive

/-- The guard under which each branch of classify_endometrium fires, read
off the source: the else branch (nonReceptive) fires exactly when both
range tests fail. -/
def branchCond (b : Branch) (x : Option ℚ) : Prop :=
  match b, x with
  | Branch.absent, Option.none => True
  | Branch.receptive, Option.some t => 9.0 ≤ t ∧ t ≤ 15.0
  | Branch.preReceptive, Option.some t => 7.0 < t ∧ t < 9.0
  | Branch.nonReceptive, Option.some t =>
      ¬ (9.0 ≤ t ∧ t ≤ 15.0) ∧ ¬ (7.0 < t ∧ t < 9.0)
  | _, _ => False

/-- The (label, severity) pair each branch produces. -/
def branchResult : Branch → String × String
  | Branch.absent => ("N/A", "Please run the analysis first.")
  | Branch.receptive => ("Receptive (9-15 mm)", "green")
  | Branch.preReceptive => ("Pre-Receptive (7-9 mm)", "orange")
  | Branch.nonReceptive => ("Non-Receptive (<7 mm or >15 mm)", "red")

/-- C6: classify_endometrium is total and its four branches are exhaustive
and mutually exclusive: for every input, absent or finite, exactly one
branch guard holds, and the function returns that branch result. -/
theorem branches_exhaustive_exclusive (x : Option ℚ) :
    ∃! b : Branch, branchCond b x ∧ classify_endometrium x = branchResult b := by
  cases x with
  | none =>
    refine ⟨Branch.absent, ⟨trivial, rfl⟩, ?_⟩
    intro b hb
    cases b with
    | absent => rfl
    | receptive => exact hb.1.elim
    | preReceptive => exact hb.1.elim
    | nonReceptive => exact hb.1.elim
  | some t =>
    by_cases h9 : 9.0 ≤ t ∧ t ≤ 15.0
    · refine ⟨Branch.receptive, ⟨h9, ?_⟩, ?_⟩
      · simp only [classify_endometrium]
        rw [if_pos h9]
        rfl
      · intro b hb
        cases b with
        | absent => exact hb.1.elim
        | receptive => rfl
        | preReceptive => exact absurd h9.1 (by have h := hb.1.2; intro h9t; linarith)
        | nonReceptive => exact absurd h9 hb.1.1
    · by_cases h7 : 7.0 < t ∧ t < 9.0
      · refine ⟨Branch.preReceptive, ⟨h7, ?_⟩, ?_⟩
        · simp only [classify_endometrium]
          rw [if_neg h9, if_pos h7]
          rfl
        · intro b hb
          cases b with
          | absent => exact hb.1.elim
          | receptive => exact absurd hb.1 h9
          | preReceptive => rfl
          | nonReceptive => exact absurd h7 hb.1.2
      · refine ⟨Branch.nonReceptive, ⟨⟨h9, h7⟩, ?_⟩, ?_⟩
        · simp only [classify_endometrium]
          rw [if_neg h9, if_neg h7]
          rfl
        · intro b hb
          cases b with
          | absent => exact hb.1.elim
          | receptive => exact absurd hb.1 h9
          | preReceptive => exact absurd hb.1 h7
          | nonReceptive => rfl

/-- An RGB image: height, width, and a pixel map giving the three channel
values at each (row, column). -/
structure Img where
  h : ℕ
  w : ℕ
  pix : ℕ → ℕ → ℕ × ℕ × ℕ

/-- Embedding of the channel darkening (processed_array * 0.7).astype(np.uint8)
of line 143, on one 8-bit channel value: the product v * 0.7 is computed in
IEEE-754 double precision and truncated toward zero. For v in 0..255 this
equals 7 * v / 10 in integer arithmetic except at v = 90, 170 and 180, where
the double product lands just below the integer (for example 90 * 0.7 gives
62.99999999999999) and the truncation yields one less. -/
def darken (v : ℕ) : ℕ :=
  if v = 90 ∨ v = 170 ∨ v = 180 then 7 * v / 10 - 1 else 7 * v / 10

/-- Darkening applied to all three channels of a pixel. -/
def darkenRGB (p : ℕ × ℕ × ℕ) : ℕ × ℕ × ℕ :=
  (darken p.1, darken p.2.1, darken p.2.2)

/-- Embedding of the mock segmentation of lines 140-154: the image is
darkened channelwise, then the rows from h / 2 - h / 6 up to h / 2 + h / 6
and columns from w / 2 - w / 5 up to w / 2 + w / 5 (the central slice
assignment of line 152, with center_h = h // 2, mask_h = h // 6,
mask_w = w // 5) are overwritten with the bright red pixel (255, 50, 50). -/
def processedImage (img : Img) : Img :=
  { h := img.h, w := img.w,
    pix := fun i j =>
      if img.h / 2 - img.h / 6 ≤ i ∧ i < img.h / 2 + img.h / 6 ∧
         img.w / 2 - img.w / 5 ≤ j ∧ j < img.w / 2 + img.w / 5 then
        (255, 50, 50)
      else
        darkenRGB (img.pix i j) }

/-- Well-formedness: every channel of every pixel is an 8-bit value. -/
def Img.wf (img : Img) : Prop :=
  ∀ i j, (img.pix i j).1 < 256 ∧ (img.pix i j).2.1 < 256 ∧ (img.pix i j).2.2 < 256

/-- A darkened 8-bit channel is at most 178, in particular never 255. -/
theorem darken_lt (v : ℕ) (h : v < 256) : darken v < 255 := by
  have h1 : 7 * v / 10 ≤ 178 := by
    have h2 : 7 * v ≤ 1785 := by omega
    have h3 := Nat.div_le_div_right (c := 10) h2
    simpa using h3
  unfold darken
  split_ifs <;> omega

/-- A 60 by 50 all-black test image. -/
def demoImg : Img := ⟨60, 50, fun _ _ => (0, 0, 0)⟩

/-- A 120 by 100 all-black test image. -/
def bigImg : Img := ⟨120, 100, fun _ _ => (0, 0, 0)⟩

/-- C8 (amended): the simulated segmentation darkens every pixel of the
uploaded image (each channel scaled by 0.7 and truncated) and paints the
bright red pixel value exactly on a rectangle centered in the image whose
half-height is h / 6 and half-width is w / 5 — proportional to the image
dimensions, not fixed. -/
theorem processed_pixels (img : Img) (hwf : img.wf) (i j : ℕ) :
    ((processedImage img).pix i j = (255, 50, 50) ↔
      (img.h / 2 - img.h / 6 ≤ i ∧ i < img.h / 2 + img.h / 6 ∧
       img.w / 2 - img.w / 5 ≤ j ∧ j < img.w / 2 + img.w / 5)) ∧
    (¬ (img.h / 2 - img.h / 6 ≤ i ∧ i < img.h / 2 + img.h / 6 ∧
        img.w / 2 - img.w / 5 ≤ j ∧ j < img.w / 2 + img.w / 5) →
      (processedImage img).pix i j = darkenRGB (img.pix i j)) := by
  by_cases hm : img.h / 2 - img.h / 6 ≤ i ∧ i < img.h / 2 + img.h / 6 ∧
      img.w / 2 - img.w / 5 ≤ j ∧ j < img.w / 2 + img.w / 5
  · refine ⟨?_, fun hc => absurd hm hc⟩
    simp only [processedImage]
    rw [if_pos hm]
    exact ⟨fun _ => hm, fun _ => rfl⟩
  · refine ⟨?_, fun _ => ?_⟩
    · simp only [processedImage]
      rw [if_neg hm]
      constructor
      · intro he
        exfalso
        have h255 : darken (img.pix i j).1 < 255 := darken_lt _ (hwf i j).1
        have hfst : darken (img.pix i j).1 = 255 := congrArg Prod.fst he
        omega
      · intro h
        exact absurd h hm
    · simp only [processedImage]
      rw [if_neg hm]

/-- Witness for C8 on the concrete image demoImg at pixel (0, 0), which lies
outside the central rectangle and is therefore darkened. -/
theorem processed_pixels_witness :
    ((processedImage demoImg).pix 0 0 = (255, 50, 50) ↔
      (demoImg.h / 2 - demoImg.h / 6 ≤ 0 ∧ 0 < demoImg.h / 2 + demoImg.h / 6 ∧
       demoImg.w / 2 - demoImg.w / 5 ≤ 0 ∧ 0 < demoImg.w / 2 + demoImg.w / 5)) ∧
    (¬ (demoImg.h / 2 - demoImg.h / 6 ≤ 0 ∧ 0 < demoImg.h / 2 + demoImg.h / 6 ∧
        demoImg.w / 2 - demoImg.w / 5 ≤ 0 ∧ 0 < demoImg.w / 2 + demoImg.w / 5) →
      (processedImage demoImg).pix 0 0 = darkenRGB (demoImg.pix 0 0)) :=
  processed_pixels demoImg
    (fun _ _ => ⟨(by decide : (0 : ℕ) < 256), (by decide : (0 : ℕ) < 256),
      (by decide : (0 : ℕ) < 256)⟩) 0 0

/-- The number of rows whose pixel in the middle column of the image is the
bright red mask color: the observed height of the painted rectangle. -/
def redHeight (P : Img) : ℕ :=
  (List.range P.h).countP fun i => decide (P.pix i (P.w / 2) = (255, 50, 50))

/-- C8 counterexample: the painted rectangle is not of fixed size. Its
observed height is 20 rows on a 60 by 50 image and 40 rows on a 120 by 100
image, so no single size fits every uploaded image. -/
theorem mask_not_fixed_size :
    ¬ ∃ rh : ℕ, ∀ img : Img, redHeight (processedImage img) = rh := by
  rintro ⟨rh, hall⟩
  have h1 : redHeight (processedImage demoImg) = 20 := by decide
  have h2 : redHeight (processedImage bigImg) = 40 := by decide
  rw [hall demoImg] at h1
  rw [hall bigImg] at h2
  omega

/-- The per-session state of the app (lines 110-113): the last measured
thickness and the last processed image, both initialized to None. -/
structure SessionState where
  thickness : Option ℚ
  processed_image : Option Img

/-- A call of classify_endometrium as seen by the surrounding app: it takes
the ambient session state and an input, and returns its result together with
the state after the call. The function body (lines 8-32) reads and writes no
state, so the state is returned unchanged. -/
def classifyCall (s : SessionState) (x : Option ℚ) :
    (String × String) × SessionState :=
  (classify_endometrium x, s)

/-- C7: classify_endometrium is deterministic and side-effect-free. A call
leaves the session state unchanged, a second call on the resulting state
with the same input returns an identical output, and the output does not
depend on the state the call runs in. -/
theorem classify_deterministic_stateless (s : SessionState) (x : Option ℚ) :
    (classifyCall s x).2 = s ∧
    (classifyCall (classifyCall s x).2 x).1 = (classifyCall s x).1 ∧
    ∀ s2 : SessionState, (classifyCall s2 x).1 = (classifyCall s x).1 :=
  ⟨rfl, rfl, fun _ => rfl⟩

/-- Embedding of the try/except analysis flow of lines 118-163: a successful
run stores the measured thickness (line 136) and the processed image
(line 154); any exception reaches the handler of lines 160-163, which stores
None in both session fields. -/
def analysisStep (_s : SessionState) (r : Except String (ℚ × Img)) :
    SessionState :=
  match r with
  | Except.ok (t, img) =>
      { thickness := Option.some t,
        processed_image := Option.some (processedImage img) }
  | Except.error _ =>
      { thickness := Option.none, processed_image := Option.none }

/-- Embedding of the results section of lines 167-170: it renders, and calls
classify_endometrium on the stored thickness, only when both session fields
are non-None, and returns nothing otherwise. -/
def resultsSection (s : SessionState) : Option (String × String) :=
  match s.thickness, s.processed_image with
  | Option.some t, Option.some _ =>
      Option.some (classify_endometrium (Option.some t))
  | _, _ => Option.none

/-- C9: if loading or processing the upload raises any exception, both
session fields are reset to None, regardless of the previous state, and the
results section is then not rendered. -/
theorem error_clears_state (s : SessionState) (e : String) :
    (analysisStep s (Except.error e)).thickness = Option.none ∧
    (analysisStep s (Except.error e)).processed_image = Option.none ∧
    resultsSection (analysisStep s (Except.error e)) = Option.none :=
  ⟨rfl, rfl, rfl⟩

/-- C10: whenever the results section produces a classification, both
session fields were non-None, and the displayed result comes from a
non-None thickness, so its label is never the absent-input label N/A. -/
theorem results_only_with_measurement (s : SessionState) (r : String × String)
    (h : resultsSection s = Option.some r) :
    s.thickness ≠ Option.none ∧ s.processed_image ≠ Option.none ∧
    r.1 ≠ "N/A" := by
  obtain ⟨th, pi⟩ := s
  cases th with
  | none => exact absurd h (by simp [resultsSection])
  | some t =>
    cases pi with
    | none => exact absurd h (by simp [resultsSection])
    | some img =>
      have hr : classify_endometrium (Option.some t) = r := Option.some.inj h
      refine ⟨by simp, by simp, ?_⟩
      rw [← hr]
      simp only [classify_endometrium]
      split_ifs <;> decide

/-- Witness for C10 on a concrete session state holding the thickness 12.5
and the processed demo image. -/
theorem results_only_with_measurement_witness :
    (⟨Option.some 12.5, Option.some (processedImage demoImg)⟩ :
        SessionState).thickness ≠ Option.none ∧
    (⟨Option.some 12.5, Option.some (processedImage demoImg)⟩ :
        SessionState).processed_image ≠ Option.none ∧
    (classify_endometrium (Option.some 12.5)).1 ≠ "N/A" :=
  results_only_with_measurement
    ⟨Option.some 12.5, Option.some (processedImage demoImg)⟩
    (classify_endometrium (Option.some 12.5)) rfl

end GarbhaAI
